import Mathlib

set_option linter.unusedVariables false

/-!
Shallow embedding of the inventory CRUD service (src/index.js, MySQL-backed
variant) and its photo blob store.

The relational table `inventory` is modelled as an ordered list of rows
(`DB.rows`, insertion order, `AUTO_INCREMENT` modelled by `DB.nextId`); the
cache directory is modelled as the list of file paths currently present
(`State.files`).  Each Express handler is translated into a pure function from
the pre-state (after the `multer` upload middleware has stored any incoming
file) to an HTTP response plus post-state; the two handlers whose claims are
about intermediate states (`DELETE /inventory/:id` and
`PUT /inventory/:id/photo`) instead return the list of state snapshots after
each effectful step, in program order.
-/

namespace Inventory

/-- A row of the `inventory` table (timestamps omitted: no claim mentions
them).  `photo` is the nullable `VARCHAR` blob reference. -/
structure Item where
  id : Nat
  name : String
  description : String
  photo : Option String
deriving DecidableEq

/-- The CLI options object: `--host`, `--port`, `--cache`. -/
structure Config where
  host : String
  port : String
  cache : String
deriving DecidableEq

/-- The `inventory` table: rows in insertion order plus the next
`AUTO_INCREMENT` id. -/
structure DB where
  rows : List Item
  nextId : Nat
deriving DecidableEq

/-- Server state: the database plus the set of file paths present in the
cache directory. -/
structure State where
  db : DB
  files : List String
deriving DecidableEq

/-- `path.join(dir, name)` for a relative `name` (and likewise
`path.resolve` as used with the cache directory). -/
def pathJoin (dir nm : String) : String := dir ++ "/" ++ nm

/-- `fs.unlink(p, cb)` with an error-ignoring callback: best-effort removal,
absence of the target is not an error. -/
def unlink (files : List String) (p : String) : List String :=
  files.filter (fun q => q != p)

/-- `fs.existsSync(p)`. -/
def existsSync (files : List String) (p : String) : Bool := files.contains p

/-- JavaScript truthiness of a string-or-null-or-undefined value: `undefined`
and `null` (here `none`) and the empty string are falsy. -/
def truthy : Option String → Bool
  | none => false
  | some s => s != ""

/-- JavaScript `v || ""` for an optional string `v`. -/
def jsOr (v : Option String) : String :=
  match v with
  | none => ""
  | some s => s

/-- SQL `COALESCE(?, col)`: a `NULL` parameter keeps the column value, any
non-`NULL` parameter (including the empty string) replaces it. -/
def coalesce (v : Option String) (old : String) : String :=
  match v with
  | none => old
  | some s => s

/-- `SELECT * FROM inventory WHERE id = ?`. -/
def selectById (db : DB) (id : Nat) : List Item :=
  db.rows.filter (fun r => r.id == id)

/-- An item as serialized in a JSON response, including the derived
`photoUrl` annotation where the handler adds one. -/
structure ItemOut where
  id : Nat
  name : String
  description : String
  photo : Option String
  photoUrl : Option String := none
deriving DecidableEq

/-- The observable HTTP response: status code plus the JSON payload fields
the handlers emit. -/
structure HttpResponse where
  status : Nat
  error : Option String := none
  message : Option String := none
  item : Option ItemOut := none
  items : List ItemOut := []
  count : Option Nat := none
  contentType : Option String := none
  filePath : Option String := none
deriving DecidableEq

/-- The inline annotation
`item.photo ? \x7bhttp://localhost:3000/inventory/$(item.id)/photo\x7d : null`
(the hard-coded URL template shared by `GET /inventory`,
`GET /inventory/:id` and `POST /search`). -/
def photoUrl (it : Item) : Option String :=
  if truthy it.photo then
    some ("http://localhost:3000/inventory/" ++ toString it.id ++ "/photo")
  else none

/-- `\x7b ...item, photoUrl: ... \x7d`: spread a row and attach its derived
`photoUrl`. -/
def withPhotoUrl (it : Item) : ItemOut :=
  { id := it.id, name := it.name, description := it.description,
    photo := it.photo, photoUrl := photoUrl it }

/-- A raw row serialized without any `photoUrl` annotation. -/
def rawOut (it : Item) : ItemOut :=
  { id := it.id, name := it.name, description := it.description,
    photo := it.photo }

/-- The `multer` middleware `upload.single("photo")`: when the request
carries a file it is written to the cache directory under a freshly
generated filename before the handler body runs. -/
def multerStore (cfg : Config) (s : State) (upload : Option String) : State :=
  match upload with
  | none => s
  | some f => { s with files := pathJoin cfg.cache f :: s.files }

/-- `POST /register`. -/
def register (cfg : Config) (s : State) (inventoryName descr upload : Option String) :
    HttpResponse × State :=
  let s0 := multerStore cfg s upload
  if !truthy inventoryName then
    ({ status := 400, error := some "Missing inventory name" }, s0)
  else
    let newItem : Item :=
      { id := s0.db.nextId, name := jsOr inventoryName,
        description := jsOr descr, photo := upload }
    let db1 : DB := { rows := s0.db.rows ++ [newItem], nextId := s0.db.nextId + 1 }
    ({ status := 201, message := some "Inventory item created successfully",
       item := some (rawOut newItem) }, { s0 with db := db1 })

/-- `GET /inventory`. -/
def listInventory (cfg : Config) (s : State) : HttpResponse × State :=
  let itemsWithPhotoUrl := s.db.rows.map withPhotoUrl
  ({ status := 200, count := some itemsWithPhotoUrl.length,
     items := itemsWithPhotoUrl }, s)

/-- `GET /inventory/:id`. -/
def getInventory (cfg : Config) (s : State) (id : Nat) : HttpResponse × State :=
  match selectById s.db id with
  | [] => ({ status := 404, error := some "Item not found" }, s)
  | it :: _ => ({ status := 200, item := some (withPhotoUrl it) }, s)

/-- `UPDATE inventory SET name = COALESCE(?, name),
description = COALESCE(?, description) WHERE id = ?`. -/
def updateRow (db : DB) (id : Nat) (nm descr : Option String) : DB :=
  { db with rows := db.rows.map (fun r =>
      if r.id == id then
        { r with name := coalesce nm r.name, description := coalesce descr r.description }
      else r) }

/-- A JSON body field as the destructuring handler sees it: absent from the
body (JS `undefined`), an explicit JSON `null`, or a string. -/
inductive Param where
  | undef : Param
  | null : Param
  | str (v : String) : Param
deriving DecidableEq

/-- The SQL value a defined parameter binds to: JSON `null` binds as SQL
`NULL`, a string binds as itself.  (`undef` never reaches SQL: `mysql2`
rejects `undefined` bind parameters before executing the statement.) -/
def Param.toSql : Param → Option String
  | .undef => none
  | .null => none
  | .str v => some v

/-- `PUT /inventory/:id`.  When `name` or `description` is absent from the
body, `db.execute` receives JS `undefined` and `mysql2` throws
("Bind parameters must not contain undefined") before the UPDATE runs; the
handler's catch maps this to a 500 "Database error" with the row
untouched. -/
def updateInventory (cfg : Config) (s : State) (id : Nat) (nm descr : Param) :
    HttpResponse × State :=
  match selectById s.db id with
  | [] => ({ status := 404, error := some "Item not found" }, s)
  | _ :: _ =>
    if nm = Param.undef ∨ descr = Param.undef then
      ({ status := 500, error := some "Database error" }, s)
    else
      let db1 := updateRow s.db id nm.toSql descr.toSql
      let s1 : State := { s with db := db1 }
      match selectById db1 id with
      | [] => ({ status := 500, error := some "Database error" }, s1)
      | it :: _ =>
        ({ status := 200, message := some "Item updated successfully",
           item := some (rawOut it) }, s1)

/-- `DELETE FROM inventory WHERE id = ?`. -/
def deleteRow (db : DB) (id : Nat) : DB :=
  { db with rows := db.rows.filter (fun r => !(r.id == id)) }

/-- `DELETE /inventory/:id`, returning every state snapshot in program
order: the pre-state, the state after the best-effort `fs.unlink` of the
row's blob (when the row has one), and the state after the SQL `DELETE`. -/
def deleteInventory (cfg : Config) (s : State) (id : Nat) :
    HttpResponse × List State :=
  match selectById s.db id with
  | [] => ({ status := 404, error := some "Item not found" }, [s])
  | it :: _ =>
    let s1 : State :=
      if truthy it.photo then
        { s with files := unlink s.files (pathJoin cfg.cache (jsOr it.photo)) }
      else s
    let s2 : State := { s1 with db := deleteRow s1.db id }
    ({ status := 200, message := some "Item deleted successfully" }, [s, s1, s2])

/-- `GET /inventory/:id/photo`. -/
def getPhoto (cfg : Config) (s : State) (id : Nat) : HttpResponse × State :=
  match selectById s.db id with
  | [] => ({ status := 404, error := some "Item not found" }, s)
  | it :: _ =>
    if !truthy it.photo then
      ({ status := 404, error := some "Photo not found" }, s)
    else
      let fp := pathJoin cfg.cache (jsOr it.photo)
      if !existsSync s.files fp then
        ({ status := 404, error := some "Photo file missing" }, s)
      else
        ({ status := 200, contentType := some "image/jpeg", filePath := some fp }, s)

/-- `UPDATE inventory SET photo = ? WHERE id = ?`. -/
def setPhotoRow (db : DB) (id : Nat) (f : String) : DB :=
  { db with rows := db.rows.map (fun r => if r.id == id then { r with photo := some f } else r) }

/-- `PUT /inventory/:id/photo`, returning every state snapshot in program
order: the state after the `multer` upload, the state after the best-effort
`fs.unlink` of the old blob (when the row had one), and the state after the
SQL `UPDATE` committing the new reference. -/
def putPhoto (cfg : Config) (s : State) (id : Nat) (upload : Option String) :
    HttpResponse × List State :=
  let s0 := multerStore cfg s upload
  match selectById s0.db id with
  | [] => ({ status := 404, error := some "Item not found" }, [s0])
  | it :: _ =>
    match upload with
    | none => ({ status := 400, error := some "No photo uploaded" }, [s0])
    | some f =>
      let s1 : State :=
        if truthy it.photo then
          { s0 with files := unlink s0.files (pathJoin cfg.cache (jsOr it.photo)) }
        else s0
      let db1 := setPhotoRow s1.db id f
      let s2 : State := { s1 with db := db1 }
      match selectById db1 id with
      | [] => ({ status := 500, error := some "Database error" }, [s0, s1, s2])
      | it2 :: _ =>
        ({ status := 200, message := some "Photo updated",
           item := some (rawOut it2) }, [s0, s1, s2])

/-- The three exact truthy forms the `/search` handler tests
(`has_photo === "on" || has_photo === "true" || has_photo === "1"`). -/
def searchFlag (f : Option String) : Bool :=
  f == some "on" || f == some "true" || f == some "1"

/-- `POST /search`. -/
def search (cfg : Config) (s : State) (id : Nat) (hasPhoto : Option String) :
    HttpResponse × State :=
  match selectById s.db id with
  | [] => ({ status := 404, error := some "Item not found" }, s)
  | it :: _ =>
    let result := withPhotoUrl it
    let result :=
      if searchFlag hasPhoto && truthy it.photo then
        { result with
            description := result.description ++ "\nPhoto: " ++ jsOr result.photoUrl }
      else result
    ({ status := 200, item := some result }, s)

/-- An intermediate state `cur` exhibits a dangling reference for `id`
relative to the operation that started at `base`: the row with that id
references a blob that was present at the start of the operation and has
already been deleted by it. -/
def danglingAt (cfg : Config) (base cur : State) (id : Nat) : Bool :=
  (selectById cur.db id).any (fun r =>
    match r.photo with
    | none => false
    | some p =>
      existsSync base.files (pathJoin cfg.cache p) &&
      !existsSync cur.files (pathJoin cfg.cache p))

/-- The photo-replacement claim as stated: at no point during
`PUT /inventory/:id/photo` does the item's row reference a blob the
operation has already deleted. -/
def putPhotoDanglingFree (cfg : Config) (s : State) (id : Nat) (upload : Option String) : Bool :=
  let tr := (putPhoto cfg s id upload).2
  let base := tr.headD s
  tr.all (fun si => !danglingAt cfg base si id)

/-- The item-deletion claim as stated: at no point during
`DELETE /inventory/:id` is the blob already deleted while the row still
resolves (equivalently, no snapshot has the still-present row referencing
the already-deleted blob). -/
def deleteDanglingFree (cfg : Config) (s : State) (id : Nat) : Bool :=
  let tr := (deleteInventory cfg s id).2
  let base := tr.headD s
  tr.all (fun si => !danglingAt cfg base si id)

/-! ### Helper lemmas -/

theorem coalesce_eq_getD (v : Option String) (o : String) : coalesce v o = v.getD o := by
  cases v <;> rfl

theorem jsOr_eq_getD (v : Option String) : jsOr v = v.getD "" := by
  cases v <;> rfl

theorem existsSync_iff (files : List String) (p : String) :
    existsSync files p = true ↔ p ∈ files := by
  simp [existsSync]

theorem mem_unlink (files : List String) (p q : String) :
    q ∈ unlink files p ↔ q ∈ files ∧ q ≠ p := by
  simp [unlink, List.mem_filter, bne_iff_ne]

theorem not_mem_unlink_self (files : List String) (p : String) :
    p ∉ unlink files p := by
  intro h
  exact ((mem_unlink files p p).mp h).2 rfl

theorem str_append_ne_empty (a b : String) (ha : a ≠ "") : a ++ b ≠ "" := by
  intro h
  apply ha
  have h2 := congrArg String.data h
  rw [String.data_append] at h2
  have h3 := congrArg List.length h2
  rw [List.length_append] at h3
  have h0 : ("" : String).data.length = 0 := rfl
  rw [h0] at h3
  have h4 : a.data = [] := List.length_eq_zero.mp (by omega)
  apply String.ext
  rw [h4]

theorem str_append_ne_self (a b : String) (hb : b ≠ "") : a ++ b ≠ a := by
  intro h
  apply hb
  have h2 := congrArg String.data h
  rw [String.data_append] at h2
  have h3 := congrArg List.length h2
  rw [List.length_append] at h3
  have h4 : b.data = [] := List.length_eq_zero.mp (by omega)
  apply String.ext
  rw [h4]

theorem filter_id_map (rows : List Item) (i : Nat) (g : Item → Item)
    (hg : ∀ r, (g r).id = r.id) :
    (rows.map (fun r => if r.id == i then g r else r)).filter (fun r => r.id == i)
      = (rows.filter (fun r => r.id == i)).map g := by
  induction rows with
  | nil => rfl
  | cons a t ih =>
    cases h : (a.id == i) with
    | true =>
      have h2 : a.id = i := beq_iff_eq.mp h
      have hga : (g a).id = i := by rw [hg a]; exact h2
      simp at ih
      simp [h2, hga, ih]
    | false =>
      have h2 : ¬(a.id = i) := by simpa using h
      have hga : ¬((g a).id = i) := by rw [hg a]; exact h2
      simp at ih
      simp [h2, hga, ih]

theorem selectById_updateRow (db : DB) (i : Nat) (nm descr : Option String) :
    selectById (updateRow db i nm descr) i
      = (selectById db i).map (fun r =>
          { r with name := coalesce nm r.name, description := coalesce descr r.description }) := by
  exact filter_id_map db.rows i _ (fun r => rfl)

theorem selectById_setPhotoRow (db : DB) (i : Nat) (f : String) :
    selectById (setPhotoRow db i f) i
      = (selectById db i).map (fun r => { r with photo := some f }) := by
  exact filter_id_map db.rows i _ (fun r => rfl)

theorem selectById_deleteRow (db : DB) (i : Nat) :
    selectById (deleteRow db i) i = [] := by
  unfold selectById deleteRow
  simp only [List.filter_filter]
  have : ∀ r : Item, ((r.id == i) && !(r.id == i)) = false := by
    intro r; cases h : (r.id == i) <;> simp [h]
  simp only [this, List.filter_false]

/-! ### Concrete states used by witnesses and counterexamples -/

def cfg0 : Config := { host := "0.0.0.0", port := "3000", cache := "./cache" }

def itemPhoto : Item :=
  { id := 1, name := "Blue Lady Painting", description := "Oil painting", photo := some "a1b2.jpg" }

def itemNoPhoto : Item :=
  { id := 1, name := "Blue Lady Painting", description := "Oil painting", photo := none }

def sPhoto : State := { db := { rows := [itemPhoto], nextId := 2 }, files := ["./cache/a1b2.jpg"] }

def sNoPhoto : State := { db := { rows := [itemNoPhoto], nextId := 2 }, files := [] }

def sMissingFile : State := { db := { rows := [itemPhoto], nextId := 2 }, files := [] }

/-! ### Claim theorems -/

theorem getPhoto_shape (cfg : Config) (s : State) (i : Nat) :
    ((getPhoto cfg s i).1.status = 200 ∧ (getPhoto cfg s i).1.contentType = some "image/jpeg")
      ∨ (getPhoto cfg s i).1.status = 404 := by
  unfold getPhoto
  split
  · right; rfl
  · split
    · right; rfl
    · dsimp only
      split
      · right; rfl
      · left; exact ⟨rfl, rfl⟩

/-- C9: every successful `GET /inventory/:id/photo` response carries the
header `Content-Type: image/jpeg`, whatever file was originally uploaded
(no content-type detection or validation happens anywhere in the handler). -/
theorem getPhoto_contentType_always_jpeg (cfg : Config) (s : State) (i : Nat)
    (h : (getPhoto cfg s i).1.status = 200) :
    (getPhoto cfg s i).1.contentType = some "image/jpeg" := by
  rcases getPhoto_shape cfg s i with ⟨_, hc⟩ | h4
  · exact hc
  · exact absurd (h4.symm.trans h) (by decide)

/-- Witness for C9: item 1 of `sPhoto` has a stored photo whose file exists,
the request succeeds, and the content type is `image/jpeg`. -/
theorem getPhoto_contentType_always_jpeg_witness :
    (getPhoto cfg0 sPhoto 1).1.status = 200 ∧
    (getPhoto cfg0 sPhoto 1).1.contentType = some "image/jpeg" :=
  ⟨by decide, getPhoto_contentType_always_jpeg cfg0 sPhoto 1 (by decide)⟩

/-- C10: for an item that has a photo, the derived `photoUrl` returned by
`GET /inventory`, `GET /inventory/:id` and `POST /search` is the hard-coded
string `http://localhost:3000/inventory/(id)/photo`, for every host and port
the server was configured with. -/
theorem photoUrl_hardcoded_localhost (cfg : Config) (s : State) (i : Nat)
    (it : Item) (rest : List Item) (p : String)
    (hsel : selectById s.db i = it :: rest) (hp : it.photo = some p) (hne : p ≠ "") :
    (getInventory cfg s i).1.item = some (withPhotoUrl it) ∧
    (search cfg s i none).1.item = some (withPhotoUrl it) ∧
    withPhotoUrl it ∈ (listInventory cfg s).1.items ∧
    (withPhotoUrl it).photoUrl =
      some ("http://localhost:3000/inventory/" ++ toString it.id ++ "/photo") := by
  refine ⟨?_, ?_, ?_, ?_⟩
  · unfold getInventory
    rw [hsel]
  · unfold search
    rw [hsel]
    simp [searchFlag]
  · have hmem : it ∈ s.db.rows := by
      have : it ∈ selectById s.db i := by rw [hsel]; exact List.mem_cons_self it rest
      exact List.mem_of_mem_filter this
    unfold listInventory
    exact List.mem_map_of_mem withPhotoUrl hmem
  · unfold withPhotoUrl photoUrl
    simp [truthy, hp, hne]

/-- Witness for C10: item 1 of `sPhoto` has a photo, and all three endpoints
return the fixed localhost URL for it. -/
theorem photoUrl_hardcoded_localhost_witness :
    selectById sPhoto.db 1 = itemPhoto :: [] ∧ itemPhoto.photo = some "a1b2.jpg" ∧
    ("a1b2.jpg" ≠ "") ∧
    ((getInventory cfg0 sPhoto 1).1.item = some (withPhotoUrl itemPhoto) ∧
     (search cfg0 sPhoto 1 none).1.item = some (withPhotoUrl itemPhoto) ∧
     withPhotoUrl itemPhoto ∈ (listInventory cfg0 sPhoto).1.items ∧
     (withPhotoUrl itemPhoto).photoUrl =
       some ("http://localhost:3000/inventory/" ++ toString itemPhoto.id ++ "/photo")) :=
  ⟨by decide, by decide, by decide,
    photoUrl_hardcoded_localhost cfg0 sPhoto 1 itemPhoto [] "a1b2.jpg"
      (by decide) (by decide) (by decide)⟩

/-- C7: `GET /inventory` reports `count` equal to the number of items
returned, and — the table's rows being in insertion order with ascending
ids — the items come back sorted by ascending id. -/
theorem listInventory_order_and_count (cfg : Config) (s : State)
    (hs : (s.db.rows.map Item.id).Pairwise (· < ·)) :
    (listInventory cfg s).1.count = some (listInventory cfg s).1.items.length ∧
    ((listInventory cfg s).1.items.map ItemOut.id).Pairwise (· < ·) := by
  constructor
  · rfl
  · have hmap : (listInventory cfg s).1.items.map ItemOut.id = s.db.rows.map Item.id := by
      unfold listInventory
      simp [List.map_map]
      intro a _
      rfl
    rw [hmap]
    exact hs

/-- Witness for C7: a two-row table with ids 1, 2 in insertion order lists
both items in ascending id order with `count = 2`. -/
theorem listInventory_order_and_count_witness :
    ((([itemPhoto, { id := 2, name := "Antique Vase", description := "", photo := none }] :
        List Item).map Item.id).Pairwise (· < ·)) ∧
    ((listInventory cfg0
        { db := { rows := [itemPhoto,
            { id := 2, name := "Antique Vase", description := "", photo := none }], nextId := 3 },
          files := [] }).1.count =
      some (listInventory cfg0
        { db := { rows := [itemPhoto,
            { id := 2, name := "Antique Vase", description := "", photo := none }], nextId := 3 },
          files := [] }).1.items.length ∧
     (((listInventory cfg0
        { db := { rows := [itemPhoto,
            { id := 2, name := "Antique Vase", description := "", photo := none }], nextId := 3 },
          files := [] }).1.items.map ItemOut.id).Pairwise (· < ·))) :=
  ⟨by decide,
    listInventory_order_and_count cfg0
      { db := { rows := [itemPhoto,
          { id := 2, name := "Antique Vase", description := "", photo := none }], nextId := 3 },
        files := [] } (by decide)⟩

theorem multerStore_db (cfg : Config) (s : State) (u : Option String) :
    (multerStore cfg s u).db = s.db := by
  cases u <;> rfl

theorem selectById_multerStore (cfg : Config) (s : State) (u : Option String) (i : Nat) :
    selectById (multerStore cfg s u).db i = selectById s.db i := by
  rw [multerStore_db]

def emptyState : State := { db := { rows := [], nextId := 1 }, files := [] }

/-- C6: `POST /register` returns 400 and creates no row when
`inventory_name` is missing or empty; otherwise it returns 201 and the
created item carries the given name, the given description (empty string
when absent), and a photo reference exactly when a file was uploaded. -/
theorem register_validation_and_creation (cfg : Config) (s : State)
    (nm descr upload : Option String) :
    ((nm = none ∨ nm = some "") →
      (register cfg s nm descr upload).1.status = 400 ∧
      (register cfg s nm descr upload).2.db = s.db) ∧
    (∀ n : String, nm = some n → n ≠ "" →
      (register cfg s nm descr upload).1.status = 201 ∧
      (register cfg s nm descr upload).1.item = some
        (rawOut { id := s.db.nextId, name := n, description := descr.getD "", photo := upload }) ∧
      (register cfg s nm descr upload).2.db.rows =
        s.db.rows ++ [{ id := s.db.nextId, name := n,
                        description := descr.getD "", photo := upload }]) := by
  constructor
  · intro h
    have ht : truthy nm = false := by rcases h with rfl | rfl <;> rfl
    refine ⟨?_, ?_⟩ <;> simp [register, ht, multerStore_db]
  · intro n hn hne
    subst hn
    have ht : truthy (some n) = true := by simp [truthy, hne]
    refine ⟨?_, ?_, ?_⟩ <;>
      simp [register, ht, multerStore_db, jsOr_eq_getD, rawOut]

/-- Witness for C6: registering "Blue Lady Painting" with a description and
no photo yields 201 and the expected item, and a missing name yields 400. -/
theorem register_validation_and_creation_witness :
    ((some "Blue Lady Painting" : Option String) = some "Blue Lady Painting" ∧
      "Blue Lady Painting" ≠ "") ∧
    (register cfg0 emptyState (some "Blue Lady Painting") (some "Oil painting") none).1.status = 201 ∧
    (register cfg0 emptyState (some "Blue Lady Painting") (some "Oil painting") none).1.item =
      some (rawOut { id := emptyState.db.nextId, name := "Blue Lady Painting",
                     description := (some "Oil painting" : Option String).getD "", photo := none }) ∧
    (register cfg0 emptyState none (some "whatever") none).1.status = 400 :=
  ⟨⟨rfl, by decide⟩,
   ((register_validation_and_creation cfg0 emptyState (some "Blue Lady Painting")
      (some "Oil painting") none).2 "Blue Lady Painting" rfl (by decide)).1,
   ((register_validation_and_creation cfg0 emptyState (some "Blue Lady Painting")
      (some "Oil painting") none).2 "Blue Lady Painting" rfl (by decide)).2.1,
   ((register_validation_and_creation cfg0 emptyState none (some "whatever") none).1
      (Or.inl rfl)).1⟩

/-- C8: `PUT /inventory/:id/photo` with an uploaded file for a nonexistent
id returns 404, leaves the table unchanged, and the freshly uploaded blob is
referenced by no item (at worst it stays as an orphan file in the cache
directory). -/
theorem putPhoto_missing_id_no_reference (cfg : Config) (s : State) (i : Nat) (f : String)
    (hsel : selectById s.db i = [])
    (hfresh : s.db.rows.all (fun r => r.photo != some f) = true) :
    (putPhoto cfg s i (some f)).1.status = 404 ∧
    ((putPhoto cfg s i (some f)).2.getLastD s).db = s.db ∧
    (((putPhoto cfg s i (some f)).2.getLastD s).db.rows.all
        (fun r => r.photo != some f)) = true := by
  have e : putPhoto cfg s i (some f) =
      ({ status := 404, error := some "Item not found" }, [multerStore cfg s (some f)]) := by
    simp only [putPhoto, selectById_multerStore, hsel]
  rw [e]
  refine ⟨rfl, ?_, ?_⟩
  · show (multerStore cfg s (some f)).db = s.db
    exact multerStore_db cfg s (some f)
  · show ((multerStore cfg s (some f)).db.rows.all (fun r => r.photo != some f)) = true
    rw [multerStore_db]
    exact hfresh

/-- Witness for C8: uploading to id 99 of the single-item store fails with
404 and no row references the new blob. -/
theorem putPhoto_missing_id_no_reference_witness :
    selectById sPhoto.db 99 = [] ∧
    (sPhoto.db.rows.all (fun r => r.photo != some "fresh.png")) = true ∧
    ((putPhoto cfg0 sPhoto 99 (some "fresh.png")).1.status = 404 ∧
     ((putPhoto cfg0 sPhoto 99 (some "fresh.png")).2.getLastD sPhoto).db = sPhoto.db ∧
     (((putPhoto cfg0 sPhoto 99 (some "fresh.png")).2.getLastD sPhoto).db.rows.all
        (fun r => r.photo != some "fresh.png")) = true) :=
  ⟨by decide, by decide,
   putPhoto_missing_id_no_reference cfg0 sPhoto 99 "fresh.png" (by decide) (by decide)⟩

/-- C4: the search response's description equals the stored description
with the photo note appended exactly when `has_photo` is one of the strings
"on", "true", "1" (case-sensitive, no other truthy forms) and the item has
a photo; the search never mutates the store, so a subsequent
`GET /inventory/:id` still returns the original description. -/
theorem search_annotates_response_only (cfg : Config) (s : State) (i : Nat)
    (flag : Option String) (it : Item) (rest : List Item)
    (hsel : selectById s.db i = it :: rest) :
    (((search cfg s i flag).1.item.map ItemOut.description) =
        some (it.description ++ ("\nPhoto: " ++ jsOr (photoUrl it))) ↔
      ((flag = some "on" ∨ flag = some "true" ∨ flag = some "1") ∧
        truthy it.photo = true)) ∧
    (search cfg s i flag).2 = s ∧
    ((getInventory cfg (search cfg s i flag).2 i).1.item.map ItemOut.description) =
      some it.description := by
  have hstate : (search cfg s i flag).2 = s := by
    unfold search
    rw [hsel]
  have hnote : ("\nPhoto: " ++ jsOr (photoUrl it)) ≠ "" :=
    str_append_ne_empty "\nPhoto: " (jsOr (photoUrl it)) (by decide)
  refine ⟨?_, hstate, ?_⟩
  · cases hf : (searchFlag flag && truthy it.photo) with
    | true =>
      have e : (search cfg s i flag).1.item = some
          { withPhotoUrl it with description :=
              (withPhotoUrl it).description ++ "\nPhoto: " ++ jsOr (withPhotoUrl it).photoUrl } := by
        unfold search
        rw [hsel]
        dsimp only
        rw [hf]
        rfl
      obtain ⟨hfl, htr⟩ : searchFlag flag = true ∧ truthy it.photo = true := by
        simpa using hf
      refine iff_of_true ?_ ⟨?_, htr⟩
      · rw [e]
        show some ((it.description ++ "\nPhoto: ") ++ jsOr (photoUrl it)) = _
        rw [String.append_assoc]
      · have h3 : (flag = some "on" ∨ flag = some "true") ∨ flag = some "1" := by
          simpa [searchFlag] using hfl
        exact or_assoc.mp h3
    | false =>
      have e : (search cfg s i flag).1.item = some (withPhotoUrl it) := by
        unfold search
        rw [hsel]
        dsimp only
        rw [hf]
        rfl
      refine iff_of_false ?_ ?_
      · rw [e]
        intro h
        have h2 : it.description = it.description ++ ("\nPhoto: " ++ jsOr (photoUrl it)) := by
          exact Option.some.injEq _ _ ▸ (by simpa using h)
        exact str_append_ne_self it.description ("\nPhoto: " ++ jsOr (photoUrl it)) hnote h2.symm
      · rintro ⟨hfl, htr⟩
        have : searchFlag flag = true := by
          rcases hfl with rfl | rfl | rfl <;> rfl
        rw [this, htr] at hf
        exact absurd hf (by decide)
  · rw [hstate]
    unfold getInventory
    rw [hsel]
    rfl

/-- Witness for C4: searching item 1 of `sPhoto` with `has_photo = "on"`
annotates the response description and leaves the store untouched. -/
theorem search_annotates_response_only_witness :
    selectById sPhoto.db 1 = itemPhoto :: [] ∧
    ((((search cfg0 sPhoto 1 (some "on")).1.item.map ItemOut.description) =
        some (itemPhoto.description ++ ("\nPhoto: " ++ jsOr (photoUrl itemPhoto))) ↔
      (((some "on" : Option String) = some "on" ∨ (some "on" : Option String) = some "true" ∨
          (some "on" : Option String) = some "1") ∧
        truthy itemPhoto.photo = true)) ∧
     (search cfg0 sPhoto 1 (some "on")).2 = sPhoto ∧
     ((getInventory cfg0 (search cfg0 sPhoto 1 (some "on")).2 1).1.item.map
        ItemOut.description) = some itemPhoto.description) :=
  ⟨by decide, search_annotates_response_only cfg0 sPhoto 1 (some "on") itemPhoto [] (by decide)⟩

def itemVase : Item :=
  { id := 1, name := "Antique Vase", description := "Chinese vase from Ming Dynasty", photo := none }

def sDescr : State := { db := { rows := [itemVase], nextId := 2 }, files := [] }

/-- Counterexample to C3 as stated: a partial update passing an explicit
`null` name and the empty string for `description` succeeds and clears a
non-empty stored description — SQL `COALESCE` treats only `NULL`, not the
empty string, as "no change". -/
theorem updateInventory_empty_string_clears_cex :
    (updateInventory cfg0 sDescr 1 Param.null (Param.str "")).1.status = 200 ∧
    sDescr.db.rows.map Item.description = ["Chinese vase from Ming Dynasty"] ∧
    (updateInventory cfg0 sDescr 1 Param.null (Param.str "")).2.db.rows.map
      Item.description = [""] := by
  decide

/-- C3 amended: on an existing item, a partial update whose `name` or
`description` is absent from the body fails as a whole with a 500 (mysql2
rejects `undefined` bind parameters) and changes nothing; when both fields
are present, a JSON `null` argument leaves the corresponding stored field
unchanged, while a string argument — including the empty string —
overwrites it, so a non-empty description CAN be cleared by passing the
empty string. -/
theorem updateInventory_param_semantics (cfg : Config) (s : State) (i : Nat)
    (it : Item) (rest : List Item) (nm descr : Param)
    (hsel : selectById s.db i = it :: rest) :
    ((nm = Param.undef ∨ descr = Param.undef) →
      (updateInventory cfg s i nm descr).1 =
        { status := 500, error := some "Database error" } ∧
      (updateInventory cfg s i nm descr).2 = s) ∧
    (nm ≠ Param.undef → descr ≠ Param.undef →
      (updateInventory cfg s i nm descr).1.status = 200 ∧
      selectById (updateInventory cfg s i nm descr).2.db i =
        (it :: rest).map (fun r =>
          { r with name := coalesce nm.toSql r.name,
                   description := coalesce descr.toSql r.description })) := by
  constructor
  · intro h
    have e : updateInventory cfg s i nm descr =
        ({ status := 500, error := some "Database error" }, s) := by
      unfold updateInventory
      rw [hsel]
      dsimp only
      rw [if_pos h]
    rw [e]
    exact ⟨rfl, rfl⟩
  · intro h1 h2
    have hcond : ¬(nm = Param.undef ∨ descr = Param.undef) := by
      rintro (h | h)
      exacts [h1 h, h2 h]
    have hsel2 : selectById (updateRow s.db i nm.toSql descr.toSql) i =
        ({ it with name := coalesce nm.toSql it.name,
                   description := coalesce descr.toSql it.description }) ::
          rest.map (fun r =>
            { r with name := coalesce nm.toSql r.name,
                     description := coalesce descr.toSql r.description }) := by
      rw [selectById_updateRow, hsel, List.map_cons]
    have e : updateInventory cfg s i nm descr =
        ({ status := 200, message := some "Item updated successfully",
           item := some (rawOut
             { it with name := coalesce nm.toSql it.name,
                       description := coalesce descr.toSql it.description }) },
         { s with db := updateRow s.db i nm.toSql descr.toSql }) := by
      unfold updateInventory
      rw [hsel]
      dsimp only
      rw [if_neg hcond]
      rw [hsel2]
    rw [e]
    refine ⟨rfl, ?_⟩
    show selectById (updateRow s.db i nm.toSql descr.toSql) i = _
    rw [hsel2, List.map_cons]

/-- Witness for C3 amended: on item 1 of `sDescr`, an update with an absent
name 500s and changes nothing, while an update with a `null` name and an
empty-string description succeeds, keeps the name and clears the
description. -/
theorem updateInventory_param_semantics_witness :
    selectById sDescr.db 1 = itemVase :: [] ∧
    (Param.undef = Param.undef ∨ (Param.str "x" : Param) = Param.undef) ∧
    ((updateInventory cfg0 sDescr 1 Param.undef (Param.str "x")).1 =
       { status := 500, error := some "Database error" } ∧
     (updateInventory cfg0 sDescr 1 Param.undef (Param.str "x")).2 = sDescr) ∧
    ((Param.null : Param) ≠ Param.undef) ∧ ((Param.str "" : Param) ≠ Param.undef) ∧
    ((updateInventory cfg0 sDescr 1 Param.null (Param.str "")).1.status = 200 ∧
     selectById (updateInventory cfg0 sDescr 1 Param.null (Param.str "")).2.db 1 =
       (itemVase :: []).map
         (fun r => { r with name := coalesce (Param.null).toSql r.name,
                            description := coalesce (Param.str "").toSql r.description })) :=
  ⟨by decide, Or.inl rfl,
   (updateInventory_param_semantics cfg0 sDescr 1 itemVase [] Param.undef (Param.str "x")
      (by decide)).1 (Or.inl rfl),
   by decide, by decide,
   (updateInventory_param_semantics cfg0 sDescr 1 itemVase [] Param.null (Param.str "")
      (by decide)).2 (by decide) (by decide)⟩

/-- Counterexample to C5 as stated: the two failure causes both return 404
but with different error bodies, so the wire response does distinguish
"no photo set" from "file missing". -/
theorem getPhoto_404_bodies_differ_cex :
    (getPhoto cfg0 sNoPhoto 1).1.status = 404 ∧
    (getPhoto cfg0 sMissingFile 1).1.status = 404 ∧
    (getPhoto cfg0 sNoPhoto 1).1 ≠ (getPhoto cfg0 sMissingFile 1).1 := by
  decide

/-- C5 amended: both failure causes produce status 404, but with distinct
error messages in the JSON body — "Photo not found" when the item has no
photo reference and "Photo file missing" when the referenced file is absent
on disk — so the two causes are distinguishable in the wire response. -/
theorem getPhoto_404_two_causes (cfg : Config) (s : State) (i : Nat)
    (it : Item) (rest : List Item)
    (hsel : selectById s.db i = it :: rest) :
    (truthy it.photo = false →
      (getPhoto cfg s i).1 = { status := 404, error := some "Photo not found" }) ∧
    (truthy it.photo = true →
      existsSync s.files (pathJoin cfg.cache (jsOr it.photo)) = false →
      (getPhoto cfg s i).1 = { status := 404, error := some "Photo file missing" }) := by
  constructor
  · intro h
    unfold getPhoto
    rw [hsel]
    dsimp only
    rw [h]
    rfl
  · intro h1 h2
    unfold getPhoto
    rw [hsel]
    dsimp only
    rw [h1, h2]
    rfl

/-- Witness for C5 amended: item 1 of `sNoPhoto` has no photo reference and
yields the "Photo not found" 404; item 1 of `sMissingFile` has a reference
whose file is absent and yields the "Photo file missing" 404. -/
theorem getPhoto_404_two_causes_witness :
    selectById sNoPhoto.db 1 = itemNoPhoto :: [] ∧
    truthy itemNoPhoto.photo = false ∧
    selectById sMissingFile.db 1 = itemPhoto :: [] ∧
    truthy itemPhoto.photo = true ∧
    existsSync sMissingFile.files (pathJoin cfg0.cache (jsOr itemPhoto.photo)) = false ∧
    (getPhoto cfg0 sNoPhoto 1).1 = { status := 404, error := some "Photo not found" } ∧
    (getPhoto cfg0 sMissingFile 1).1 = { status := 404, error := some "Photo file missing" } :=
  ⟨by decide, by decide, by decide, by decide, by decide,
   (getPhoto_404_two_causes cfg0 sNoPhoto 1 itemNoPhoto [] (by decide)).1 (by decide),
   (getPhoto_404_two_causes cfg0 sMissingFile 1 itemPhoto [] (by decide)).2
     (by decide) (by decide)⟩

/-- Counterexample to C1 as stated: replacing the photo of item 1 of
`sPhoto` unlinks the old blob BEFORE the new reference is committed, so an
intermediate snapshot has the row referencing the already-deleted blob. -/
theorem putPhoto_dangling_window_cex :
    putPhotoDanglingFree cfg0 sPhoto 1 (some "new.png") = false := by decide

/-- C1 amended: for an existing item with an old photo whose blob is on
disk, `PUT /inventory/:id/photo` best-effort deletes the old blob BEFORE
committing the new reference — there is an intermediate state in which the
item's row references the already-deleted old blob — and on completion the
row references the new blob, whose file is present, while the old blob is
gone. -/
theorem putPhoto_unlinks_old_before_commit (cfg : Config) (s : State) (i : Nat)
    (it : Item) (rest : List Item) (old fnew : String)
    (hsel : selectById s.db i = it :: rest)
    (hph : it.photo = some old) (hold : old ≠ "")
    (hfile : pathJoin cfg.cache old ∈ s.files)
    (hne : pathJoin cfg.cache fnew ≠ pathJoin cfg.cache old) :
    putPhotoDanglingFree cfg s i (some fnew) = false ∧
    (putPhoto cfg s i (some fnew)).1.status = 200 ∧
    selectById ((putPhoto cfg s i (some fnew)).2.getLastD s).db i =
      (it :: rest).map (fun r => { r with photo := some fnew }) ∧
    pathJoin cfg.cache old ∉ ((putPhoto cfg s i (some fnew)).2.getLastD s).files ∧
    pathJoin cfg.cache fnew ∈ ((putPhoto cfg s i (some fnew)).2.getLastD s).files := by
  have ht : truthy it.photo = true := by rw [hph]; simp [truthy, hold]
  have hj : jsOr it.photo = old := by rw [hph]; rfl
  have hsel1 : selectById (setPhotoRow s.db i fnew) i =
      ({ it with photo := some fnew }) ::
        rest.map (fun r => { r with photo := some fnew }) := by
    rw [selectById_setPhotoRow, hsel, List.map_cons]
  have e : putPhoto cfg s i (some fnew) =
      ({ status := 200, message := some "Photo updated",
         item := some (rawOut { it with photo := some fnew }) },
       [{ s with files := pathJoin cfg.cache fnew :: s.files },
        { s with files := unlink (pathJoin cfg.cache fnew :: s.files) (pathJoin cfg.cache old) },
        { db := setPhotoRow s.db i fnew,
          files := unlink (pathJoin cfg.cache fnew :: s.files) (pathJoin cfg.cache old) }]) := by
    unfold putPhoto
    dsimp only [multerStore]
    rw [hsel]
    dsimp only
    rw [ht, hj]
    simp only [reduceIte]
    rw [hsel1]
  have h1 : existsSync (pathJoin cfg.cache fnew :: s.files) (pathJoin cfg.cache old) = true :=
    (existsSync_iff _ _).mpr (List.mem_cons_of_mem _ hfile)
  have h2 : existsSync (unlink (pathJoin cfg.cache fnew :: s.files) (pathJoin cfg.cache old))
      (pathJoin cfg.cache old) = false :=
    Bool.eq_false_iff.mpr (fun hc => not_mem_unlink_self _ _ ((existsSync_iff _ _).mp hc))
  refine ⟨?_, ?_, ?_, ?_, ?_⟩
  · unfold putPhotoDanglingFree
    rw [e]
    dsimp only [List.headD]
    have hd : danglingAt cfg { s with files := pathJoin cfg.cache fnew :: s.files } { s with files := unlink (pathJoin cfg.cache fnew :: s.files) (pathJoin cfg.cache old) } i = true := by
      unfold danglingAt
      dsimp only
      rw [hsel]
      simp [List.any_cons, hph, h1, h2]
    simp only [List.all_cons, List.all_nil]
    rw [hd]
    simp
  · rw [e]
  · rw [e]
    show selectById (setPhotoRow s.db i fnew) i = _
    rw [hsel1, List.map_cons]
  · rw [e]
    show pathJoin cfg.cache old ∉
      unlink (pathJoin cfg.cache fnew :: s.files) (pathJoin cfg.cache old)
    exact not_mem_unlink_self _ _
  · rw [e]
    show pathJoin cfg.cache fnew ∈
      unlink (pathJoin cfg.cache fnew :: s.files) (pathJoin cfg.cache old)
    exact (mem_unlink _ _ _).mpr ⟨List.mem_cons_self _ _, hne⟩

/-- Witness for C1 amended: replacing item 1's photo "a1b2.jpg" of `sPhoto`
with "new.png" exhibits the dangling window and the final committed state. -/
theorem putPhoto_unlinks_old_before_commit_witness :
    selectById sPhoto.db 1 = itemPhoto :: [] ∧
    itemPhoto.photo = some "a1b2.jpg" ∧ ("a1b2.jpg" ≠ "") ∧
    pathJoin cfg0.cache "a1b2.jpg" ∈ sPhoto.files ∧
    pathJoin cfg0.cache "new.png" ≠ pathJoin cfg0.cache "a1b2.jpg" ∧
    (putPhotoDanglingFree cfg0 sPhoto 1 (some "new.png") = false ∧
     (putPhoto cfg0 sPhoto 1 (some "new.png")).1.status = 200 ∧
     selectById ((putPhoto cfg0 sPhoto 1 (some "new.png")).2.getLastD sPhoto).db 1 =
       (itemPhoto :: []).map (fun r => { r with photo := some "new.png" }) ∧
     pathJoin cfg0.cache "a1b2.jpg" ∉
       ((putPhoto cfg0 sPhoto 1 (some "new.png")).2.getLastD sPhoto).files ∧
     pathJoin cfg0.cache "new.png" ∈
       ((putPhoto cfg0 sPhoto 1 (some "new.png")).2.getLastD sPhoto).files) :=
  ⟨by decide, by decide, by decide, by decide, by decide,
   putPhoto_unlinks_old_before_commit cfg0 sPhoto 1 itemPhoto [] "a1b2.jpg" "new.png"
     (by decide) (by decide) (by decide) (by decide) (by decide)⟩

/-- Counterexample to C2 as stated: deleting item 1 of `sPhoto` unlinks its
blob BEFORE the row is deleted, so an intermediate snapshot still resolves
the id while its blob is already gone. -/
theorem delete_unlink_before_row_cex :
    deleteDanglingFree cfg0 sPhoto 1 = false := by decide

/-- C2 amended: deleting any existing item returns 200 and makes the id
unresolvable; its blob (if one existed) is best-effort deleted — but the
unlink is issued BEFORE the row deletion, not after it, so when the blob
file exists there is an intermediate state where the id still resolves
while the blob is already gone; a missing blob file never fails the
deletion. -/
theorem deleteInventory_unlinks_blob_first (cfg : Config) (s : State) (i : Nat)
    (it : Item) (rest : List Item)
    (hsel : selectById s.db i = it :: rest) :
    (deleteInventory cfg s i).1.status = 200 ∧
    selectById ((deleteInventory cfg s i).2.getLastD s).db i = [] ∧
    (∀ p : String, it.photo = some p → p ≠ "" →
      pathJoin cfg.cache p ∉ ((deleteInventory cfg s i).2.getLastD s).files ∧
      (pathJoin cfg.cache p ∈ s.files → deleteDanglingFree cfg s i = false)) := by
  by_cases htr : truthy it.photo = true
  · obtain ⟨p, hph, hp⟩ : ∃ p, it.photo = some p ∧ p ≠ "" := by
      cases hph : it.photo with
      | none => rw [hph] at htr; exact absurd htr (by decide)
      | some q =>
        refine ⟨q, rfl, ?_⟩
        rw [hph] at htr
        simpa [truthy] using htr
    have hj : jsOr it.photo = p := by rw [hph]; rfl
    have e : deleteInventory cfg s i =
        ({ status := 200, message := some "Item deleted successfully" },
         [s, { s with files := unlink s.files (pathJoin cfg.cache p) },
          { db := deleteRow s.db i, files := unlink s.files (pathJoin cfg.cache p) }]) := by
      unfold deleteInventory
      rw [hsel]
      dsimp only
      rw [htr, hj]
      rfl
    refine ⟨by rw [e], ?_, ?_⟩
    · rw [e]
      show selectById (deleteRow s.db i) i = []
      exact selectById_deleteRow s.db i
    · intro q hq hqe
      have hqp : q = p := by rw [hph] at hq; exact (Option.some.inj hq).symm
      subst hqp
      constructor
      · rw [e]
        show pathJoin cfg.cache q ∉ unlink s.files (pathJoin cfg.cache q)
        exact not_mem_unlink_self _ _
      · intro hfile
        have h1 : existsSync s.files (pathJoin cfg.cache q) = true :=
          (existsSync_iff _ _).mpr hfile
        have h2 : existsSync (unlink s.files (pathJoin cfg.cache q))
            (pathJoin cfg.cache q) = false :=
          Bool.eq_false_iff.mpr (fun hc => not_mem_unlink_self _ _ ((existsSync_iff _ _).mp hc))
        unfold deleteDanglingFree
        rw [e]
        dsimp only [List.headD]
        have hd : danglingAt cfg s
            ({ s with files := unlink s.files (pathJoin cfg.cache q) }) i = true := by
          unfold danglingAt
          dsimp only
          rw [hsel]
          simp [List.any_cons, hq, h1, h2]
        simp only [List.all_cons, List.all_nil]
        rw [hd]
        simp
  · have htf : truthy it.photo = false := by
      revert htr; cases truthy it.photo <;> simp
    have e : deleteInventory cfg s i =
        ({ status := 200, message := some "Item deleted successfully" },
         [s, s, { s with db := deleteRow s.db i }]) := by
      unfold deleteInventory
      rw [hsel]
      dsimp only
      rw [htf]
      rfl
    refine ⟨by rw [e], ?_, ?_⟩
    · rw [e]
      show selectById (deleteRow s.db i) i = []
      exact selectById_deleteRow s.db i
    · intro q hq hqe
      exfalso
      have hqt : truthy it.photo = true := by rw [hq]; simp [truthy, hqe]
      rw [htf] at hqt
      exact absurd hqt (by decide)

/-- Witness for C2 amended: deleting item 1 of `sPhoto` (photo on disk)
succeeds, makes the id unresolvable, removes the blob, and exhibits the
unlink-before-row-delete ordering. -/
theorem deleteInventory_unlinks_blob_first_witness :
    selectById sPhoto.db 1 = itemPhoto :: [] ∧
    ((deleteInventory cfg0 sPhoto 1).1.status = 200 ∧
     selectById ((deleteInventory cfg0 sPhoto 1).2.getLastD sPhoto).db 1 = [] ∧
     (∀ p : String, itemPhoto.photo = some p → p ≠ "" →
       pathJoin cfg0.cache p ∉ ((deleteInventory cfg0 sPhoto 1).2.getLastD sPhoto).files ∧
       (pathJoin cfg0.cache p ∈ sPhoto.files → deleteDanglingFree cfg0 sPhoto 1 = false))) :=
  ⟨by decide, deleteInventory_unlinks_blob_first cfg0 sPhoto 1 itemPhoto [] (by decide)⟩

end Inventory
